import Mathlib

/-!
Shallow embedding of the session orchestration loop of
`src/cozmo_companion/assistant.py` (class `VoiceAssistant`), covering
`start_session`, `terminate_session`, `_listen`, `_speak`,
`detect_sentiment` and `check_exit_command`.

External services (IBM Watson STT/TTS, the Marvin classifiers and the
chat response engine) are modelled by a per-turn environment recording
the outcome each external call would produce on this turn.  The loop
body of `start_session` becomes `processTurn`; the `while True` loop
becomes `runSession`, folded over a list of per-turn environments (the
list is the fuel: the Python loop only ends via `break` or an escaping
exception).  Every observable action (service calls, log lines, speech,
history appends) is recorded in an event trace so that ordering and
frame properties can be stated.
-/

namespace CozmoCompanion

/-- The `Sentiment` enum of assistant.py. -/
inductive Sentiment
  | POSITIVE
  | NEGATIVE
  | NEUTRAL
deriving DecidableEq, Repr

/-- One entry of `conversation_history`: a dict with keys role / content. -/
structure Entry where
  role : String
  content : String
deriving DecidableEq, Repr

/-- Observable events of one session, in program order. -/
inductive Event
  | sttCall
  | logNoSpeech
  | logSTTError (code : Nat) (msg : String)
  | logNoValidInput
  | exitCheck (text : String)
  | sentimentCall (text : String)
  | engineCall (text : String)
  | speakCall (text : String)
  | played (text : String)
  | logTTSError (code : Nat) (msg : String)
  | logProcessError
  | appendEntry (e : Entry)
  | logDetails
deriving DecidableEq, Repr

/-- Outcome of `_listen`: a transcript from Watson STT, an empty
`results` list (no speech detected), or an `ApiException` from the
service (caught inside `_listen`, which then falls through and
returns `None`). -/
inductive ListenOutcome
  | result (transcript : String)
  | empty
  | apiError (code : Nat) (msg : String)
deriving DecidableEq, Repr

/-- Per-turn environment: what each external call would do this turn.
`exitResult`, `sentimentResult` and `engineResult` are `Except` because
the Marvin calls may raise; `engineResult` covers `say_async` together
with the extraction of the reply text.  `ttsFail text` is the
`ApiException` (status code, message) that `synthesize` would raise for
`text`, if any; it is caught inside `_speak`. -/
structure TurnEnv where
  listen : ListenOutcome
  exitResult : Except Unit Bool
  sentimentResult : Except Unit Sentiment
  engineResult : Except Unit String
  ttsFail : String → Option (Nat × String)

/-- Fixed farewell spoken by `terminate_session`. -/
def gpt_exit_message : String :=
  "Alright, I understand. It was great talking to you. I am always here for you if you want to talk. Goodbye!"

/-- Generic apology spoken when the Marvin processing block raises. -/
def apology_message : String :=
  "Sorry, I encountered an error processing your request."

/-- Re-prompt spoken when `_listen` returned `None`. -/
def reprompt_message : String :=
  "I didn\x27t catch that, could you please repeat?"

/-- Greeting spoken once before the loop. -/
def greeting_message : String :=
  "Hello! Chat with GPT and I will speak its responses!"

/-- Python `str.lower()`, modelled as a character-wise lowercase map
(`user_input = user_input.lower()` in `start_session`). -/
def lowerStr (s : String) : String := ⟨s.data.map Char.toLower⟩

/-- Events produced by `_speak text`: the synthesize call, then either
playback or the logged `ApiException` (caught inside `_speak`, so
`_speak` never raises an `ApiException` to its caller). -/
def speakEvents (env : TurnEnv) (text : String) : List Event :=
  match env.ttsFail text with
  | none => [.speakCall text, .played text]
  | some (c, m) => [.speakCall text, .logTTSError c m]

/-- Events produced inside `_listen` for each outcome. -/
def listenEvents : ListenOutcome → List Event
  | .result _ => [.sttCall]
  | .empty => [.sttCall, .logNoSpeech]
  | .apiError c m => [.sttCall, .logSTTError c m]

/-- Return value of `_listen`: the transcript, or `None` both for the
empty-results case and for the caught `ApiException` (the except
branch has no return statement). -/
def listenResult : ListenOutcome → Option String
  | .result t => some t
  | .empty => none
  | .apiError _ _ => none

/-- Loop status after one iteration of the `while True` body:
back to listening, loop left via `break`, or an exception escaped. -/
inductive LoopStatus
  | awaitingInput
  | terminating
  | crashed
deriving DecidableEq, Repr

/-- Result of one loop iteration. -/
structure TurnOut where
  hist : List Entry
  trace : List Event
  status : LoopStatus
deriving Repr

/-- One iteration of the `while True` body of `start_session`, given the
conversation history accumulated so far.

Mirrors the source line by line: `_listen`; `if user_input:` (Python
truthiness: `None` and `""` are falsy); `user_input.lower()`;
`check_exit_command` OUTSIDE the try block (a raise here escapes the
loop); on exit, `terminate_session` (append user entry, speak farewell,
append farewell entry, log details) then `break`; otherwise the try
block: `detect_sentiment`, then `say_async` plus reply extraction, then
`_speak(reply)`, then the two history appends; `except Exception`:
log the failure and speak the apology; `else` branch of
`if user_input:`: log and speak the re-prompt. -/
def processTurn (env : TurnEnv) (hist : List Entry) : TurnOut :=
  let levs := listenEvents env.listen
  match listenResult env.listen with
  | none =>
    ⟨hist, levs ++ [.logNoValidInput] ++ speakEvents env reprompt_message, .awaitingInput⟩
  | some raw =>
    if raw = "" then
      ⟨hist, levs ++ [.logNoValidInput] ++ speakEvents env reprompt_message, .awaitingInput⟩
    else
      let t := lowerStr raw
      match env.exitResult with
      | .error _ => ⟨hist, levs ++ [.exitCheck t], .crashed⟩
      | .ok true =>
        ⟨hist ++ [⟨"user", t⟩, ⟨"gpt", gpt_exit_message⟩],
         levs ++ [.exitCheck t, .appendEntry ⟨"user", t⟩]
           ++ speakEvents env gpt_exit_message
           ++ [.appendEntry ⟨"gpt", gpt_exit_message⟩, .logDetails],
         .terminating⟩
      | .ok false =>
        match env.sentimentResult with
        | .error _ =>
          ⟨hist,
           levs ++ [.exitCheck t, .sentimentCall t, .logProcessError]
             ++ speakEvents env apology_message,
           .awaitingInput⟩
        | .ok _ =>
          match env.engineResult with
          | .error _ =>
            ⟨hist,
             levs ++ [.exitCheck t, .sentimentCall t, .engineCall t, .logProcessError]
               ++ speakEvents env apology_message,
             .awaitingInput⟩
          | .ok reply =>
            ⟨hist ++ [⟨"user", t⟩, ⟨"gpt", reply⟩],
             levs ++ [.exitCheck t, .sentimentCall t, .engineCall t]
               ++ speakEvents env reply
               ++ [.appendEntry ⟨"user", t⟩, .appendEntry ⟨"gpt", reply⟩],
             .awaitingInput⟩

/-- How the whole session ended: the fuel list ran out with the loop
still live, the loop ended via `break` (exit path), or an exception
escaped the loop body. -/
inductive SessionEnd
  | ranOut
  | terminated
  | crashed
deriving DecidableEq, Repr

/-- Result of running the session loop. -/
structure SessionOut where
  hist : List Entry
  trace : List Event
  ending : SessionEnd
deriving Repr

/-- The `while True` loop of `start_session`, folded over the per-turn
environments.  On `break` (termination) the trailing
`log_chatbot_details` after the loop runs; an escaped exception skips
it. -/
def runSession : List TurnEnv → List Entry → SessionOut
  | [], hist => ⟨hist, [], .ranOut⟩
  | env :: rest, hist =>
    let o := processTurn env hist
    match o.status with
    | .awaitingInput =>
      let s := runSession rest o.hist
      ⟨s.hist, o.trace ++ s.trace, s.ending⟩
    | .terminating => ⟨o.hist, o.trace ++ [.logDetails], .terminated⟩
    | .crashed => ⟨o.hist, o.trace, .crashed⟩

/-- `start_session`: greeting, then the loop, starting from the empty
`conversation_history` set up in `__init__`. -/
def startSession (envs : List TurnEnv) (greetFail : Option (Nat × String)) : SessionOut :=
  let greet : List Event :=
    match greetFail with
    | none => [.speakCall greeting_message, .played greeting_message]
    | some (c, m) => [.speakCall greeting_message, .logTTSError c m]
  let s := runSession envs []
  ⟨s.hist, greet ++ s.trace, s.ending⟩

/-- Events that C2 calls downstream of the exit check: the sentiment
call and the response-engine call. -/
def isDownstream : Event → Bool
  | .sentimentCall _ => true
  | .engineCall _ => true
  | _ => false

/-! Helper lemmas about the building blocks. -/

theorem speakCall_mem_speakEvents (env : TurnEnv) (x : String) :
    Event.speakCall x ∈ speakEvents env x := by
  unfold speakEvents
  cases h : env.ttsFail x with
  | none => simp
  | some p => cases p with | mk c m => simp

theorem speakEvents_shape (env : TurnEnv) (x : String) :
    ∀ e ∈ speakEvents env x,
      e = Event.speakCall x ∨ e = Event.played x ∨ ∃ c m, e = Event.logTTSError c m := by
  unfold speakEvents
  cases h : env.ttsFail x with
  | none => simp
  | some p =>
    cases p with | mk c m =>
      intro e he
      simp at he
      rcases he with he | he
      · exact Or.inl he
      · exact Or.inr (Or.inr ⟨c, m, he⟩)

theorem not_downstream_speakEvents (env : TurnEnv) (x : String) :
    ∀ e ∈ speakEvents env x, isDownstream e = false := by
  intro e he
  rcases speakEvents_shape env x e he with h | h | ⟨c, m, h⟩ <;> subst h <;> rfl

@[simp] theorem appendEntry_not_mem_speakEvents (env : TurnEnv) (x : String) (a : Entry) :
    Event.appendEntry a ∉ speakEvents env x := by
  intro hmem
  rcases speakEvents_shape env x _ hmem with h | h | ⟨c, m, h⟩ <;> simp at h

@[simp] theorem exitCheck_not_mem_speakEvents (env : TurnEnv) (x s : String) :
    Event.exitCheck s ∉ speakEvents env x := by
  intro hmem
  rcases speakEvents_shape env x _ hmem with h | h | ⟨c, m, h⟩ <;> simp at h

@[simp] theorem sentimentCall_not_mem_speakEvents (env : TurnEnv) (x s : String) :
    Event.sentimentCall s ∉ speakEvents env x := by
  intro hmem
  rcases speakEvents_shape env x _ hmem with h | h | ⟨c, m, h⟩ <;> simp at h

@[simp] theorem engineCall_not_mem_speakEvents (env : TurnEnv) (x s : String) :
    Event.engineCall s ∉ speakEvents env x := by
  intro hmem
  rcases speakEvents_shape env x _ hmem with h | h | ⟨c, m, h⟩ <;> simp at h


/-! Per-case unfolding lemmas for `processTurn`. -/

theorem processTurn_empty (env : TurnEnv) (hist : List Entry)
    (hl : env.listen = .empty) :
    processTurn env hist =
      ⟨hist,
       [.sttCall, .logNoSpeech, .logNoValidInput] ++ speakEvents env reprompt_message,
       .awaitingInput⟩ := by
  simp [processTurn, hl, listenResult, listenEvents]

theorem processTurn_sttError (env : TurnEnv) (hist : List Entry) (c : Nat) (m : String)
    (hl : env.listen = .apiError c m) :
    processTurn env hist =
      ⟨hist,
       [.sttCall, .logSTTError c m, .logNoValidInput] ++ speakEvents env reprompt_message,
       .awaitingInput⟩ := by
  simp [processTurn, hl, listenResult, listenEvents]

theorem processTurn_exitTrue (env : TurnEnv) (hist : List Entry) (raw : String)
    (hl : env.listen = .result raw) (hr : raw ≠ "")
    (hx : env.exitResult = .ok true) :
    processTurn env hist =
      ⟨hist ++ [⟨"user", lowerStr raw⟩, ⟨"gpt", gpt_exit_message⟩],
       [.sttCall, .exitCheck (lowerStr raw), .appendEntry ⟨"user", lowerStr raw⟩]
         ++ speakEvents env gpt_exit_message
         ++ [.appendEntry ⟨"gpt", gpt_exit_message⟩, .logDetails],
       .terminating⟩ := by
  simp [processTurn, hl, hx, listenResult, listenEvents, hr]

theorem processTurn_exitError (env : TurnEnv) (hist : List Entry) (raw : String)
    (hl : env.listen = .result raw) (hr : raw ≠ "")
    (hx : env.exitResult = .error ()) :
    processTurn env hist =
      ⟨hist, [.sttCall, .exitCheck (lowerStr raw)], .crashed⟩ := by
  simp [processTurn, hl, hx, listenResult, listenEvents, hr]

theorem processTurn_sentimentError (env : TurnEnv) (hist : List Entry) (raw : String)
    (hl : env.listen = .result raw) (hr : raw ≠ "")
    (hx : env.exitResult = .ok false) (hs : env.sentimentResult = .error ()) :
    processTurn env hist =
      ⟨hist,
       [.sttCall, .exitCheck (lowerStr raw), .sentimentCall (lowerStr raw), .logProcessError]
         ++ speakEvents env apology_message,
       .awaitingInput⟩ := by
  simp [processTurn, hl, hx, hs, listenResult, listenEvents, hr]

theorem processTurn_engineError (env : TurnEnv) (hist : List Entry) (raw : String)
    (v : Sentiment) (hl : env.listen = .result raw) (hr : raw ≠ "")
    (hx : env.exitResult = .ok false) (hs : env.sentimentResult = .ok v)
    (he : env.engineResult = .error ()) :
    processTurn env hist =
      ⟨hist,
       [.sttCall, .exitCheck (lowerStr raw), .sentimentCall (lowerStr raw),
        .engineCall (lowerStr raw), .logProcessError]
         ++ speakEvents env apology_message,
       .awaitingInput⟩ := by
  simp [processTurn, hl, hx, hs, he, listenResult, listenEvents, hr]

theorem processTurn_success (env : TurnEnv) (hist : List Entry) (raw : String)
    (v : Sentiment) (reply : String)
    (hl : env.listen = .result raw) (hr : raw ≠ "")
    (hx : env.exitResult = .ok false) (hs : env.sentimentResult = .ok v)
    (he : env.engineResult = .ok reply) :
    processTurn env hist =
      ⟨hist ++ [⟨"user", lowerStr raw⟩, ⟨"gpt", reply⟩],
       [.sttCall, .exitCheck (lowerStr raw), .sentimentCall (lowerStr raw),
        .engineCall (lowerStr raw)]
         ++ speakEvents env reply
         ++ [.appendEntry ⟨"user", lowerStr raw⟩, .appendEntry ⟨"gpt", reply⟩],
       .awaitingInput⟩ := by
  simp [processTurn, hl, hx, hs, he, listenResult, listenEvents, hr]

/-! Claim C1. -/

/-- C1: for every transcript classified with exit-intent = true, the
orchestrator appends exactly two history entries — the user's (normalized)
final utterance followed by the fixed farewell assistant entry — speaks
the farewell, the loop exits in the terminated state, and no further
per-turn input is consumed (the remaining turn environments are ignored),
regardless of the transcript's sentiment (`env.sentimentResult` is
unconstrained). -/
theorem c1_exit_turn (env : TurnEnv) (rest : List TurnEnv) (hist : List Entry)
    (raw : String) (hl : env.listen = .result raw) (hr : raw ≠ "")
    (hx : env.exitResult = .ok true) :
    (runSession (env :: rest) hist).hist
        = hist ++ [⟨"user", lowerStr raw⟩, ⟨"gpt", gpt_exit_message⟩]
      ∧ Event.speakCall gpt_exit_message ∈ (runSession (env :: rest) hist).trace
      ∧ (runSession (env :: rest) hist).ending = .terminated
      ∧ runSession (env :: rest) hist = runSession [env] hist := by
  have h := processTurn_exitTrue env hist raw hl hr hx
  refine ⟨?_, ?_, ?_, ?_⟩ <;> simp [runSession, h, speakCall_mem_speakEvents]

/-- Concrete exit-intent turn used to witness C1. -/
def c1Env : TurnEnv :=
  ⟨.result "goodbye", .ok true, .ok .NEUTRAL, .ok "unused reply", fun _ => none⟩

/-- Witness for C1 at the transcript "goodbye". -/
theorem c1_exit_turn_witness :
    c1Env.listen = .result "goodbye" ∧ "goodbye" ≠ "" ∧ c1Env.exitResult = .ok true ∧
    ((runSession (c1Env :: []) []).hist
        = [] ++ [⟨"user", lowerStr "goodbye"⟩, ⟨"gpt", gpt_exit_message⟩]
      ∧ Event.speakCall gpt_exit_message ∈ (runSession (c1Env :: []) []).trace
      ∧ (runSession (c1Env :: []) []).ending = .terminated
      ∧ runSession (c1Env :: []) [] = runSession [c1Env] []) :=
  ⟨rfl, by decide, rfl, c1_exit_turn c1Env [] [] "goodbye" rfl (by decide) rfl⟩

/-! Claim C2. -/

/-- C2: for every obtained (truthy) transcript, the exit-intent check
occurs strictly before any sentiment call or response-engine call in the
turn's trace (everything preceding the exit check is not downstream),
and when the exit-intent check returns true, no sentiment call and no
engine call occurs at all in the turn. -/
theorem c2_exit_check_first (env : TurnEnv) (hist : List Entry) (raw : String)
    (hl : env.listen = .result raw) (hr : raw ≠ "") :
    (∃ l₁ l₂, (processTurn env hist).trace = l₁ ++ Event.exitCheck (lowerStr raw) :: l₂
        ∧ ∀ e ∈ l₁, isDownstream e = false)
      ∧ (env.exitResult = .ok true →
          ∀ e ∈ (processTurn env hist).trace, isDownstream e = false) := by
  rcases hx : env.exitResult with u | b
  · cases u
    rw [processTurn_exitError env hist raw hl hr hx]
    constructor
    · exact ⟨[.sttCall], [], rfl, by intro e he; simp at he; subst he; rfl⟩
    · intro hx'
      simp at hx'
  · cases b with
    | true =>
      rw [processTurn_exitTrue env hist raw hl hr hx]
      constructor
      · refine ⟨[.sttCall],
          .appendEntry ⟨"user", lowerStr raw⟩
            :: (speakEvents env gpt_exit_message
                ++ [.appendEntry ⟨"gpt", gpt_exit_message⟩, .logDetails]),
          by simp, ?_⟩
        intro e he; simp at he; subst he; rfl
      · intro _ e he
        simp at he
        rcases he with h | h | h | h | h | h <;>
          first
            | (subst h; rfl)
            | exact not_downstream_speakEvents env _ e h
    | false =>
      constructor
      · rcases hs : env.sentimentResult with u | v
        · cases u
          rw [processTurn_sentimentError env hist raw hl hr hx hs]
          refine ⟨[.sttCall],
            .sentimentCall (lowerStr raw)
              :: .logProcessError :: speakEvents env apology_message,
            by simp, ?_⟩
          intro e he; simp at he; subst he; rfl
        · rcases he : env.engineResult with u | reply
          · cases u
            rw [processTurn_engineError env hist raw v hl hr hx hs he]
            refine ⟨[.sttCall],
              .sentimentCall (lowerStr raw) :: .engineCall (lowerStr raw)
                :: .logProcessError :: speakEvents env apology_message,
              by simp, ?_⟩
            intro e he'; simp at he'; subst he'; rfl
          · rw [processTurn_success env hist raw v reply hl hr hx hs he]
            refine ⟨[.sttCall],
              .sentimentCall (lowerStr raw) :: .engineCall (lowerStr raw)
                :: (speakEvents env reply
                    ++ [.appendEntry ⟨"user", lowerStr raw⟩,
                        .appendEntry ⟨"gpt", reply⟩]),
              by simp, ?_⟩
            intro e he'; simp at he'; subst he'; rfl
      · intro hx'
        simp at hx'

/-- Concrete exit-intent turn used to witness C2. -/
def c2Env : TurnEnv :=
  ⟨.result "see you later", .ok true, .ok .POSITIVE, .ok "unused reply", fun _ => none⟩

/-- Witness for C2 at the transcript "see you later". -/
theorem c2_exit_check_first_witness :
    c2Env.listen = .result "see you later" ∧ "see you later" ≠ "" ∧
    ((∃ l₁ l₂, (processTurn c2Env []).trace
          = l₁ ++ Event.exitCheck (lowerStr "see you later") :: l₂
        ∧ ∀ e ∈ l₁, isDownstream e = false)
      ∧ (c2Env.exitResult = .ok true →
          ∀ e ∈ (processTurn c2Env []).trace, isDownstream e = false)) :=
  ⟨rfl, by decide, c2_exit_check_first c2Env [] "see you later" rfl (by decide)⟩

/-! Claim C3 (corrected). -/

/-- Non-exit turn whose sentiment classifier raises, used against C3. -/
def c3Env : TurnEnv :=
  ⟨.result "i feel sad", .ok false, .error (), .ok "a reply", fun _ => none⟩

/-- C3 counterexample: on a non-exit turn whose sentiment classifier
raises, the turn IS aborted — the trace shows no engine call, no spoken
reply and no history appends, only the logged failure and the apology.
`detect_sentiment` sits inside the same try block as the engine call, so
its exception skips the rest of the turn. -/
theorem c3_counterexample :
    (processTurn c3Env []).hist = []
      ∧ (processTurn c3Env []).trace =
          [.sttCall, .exitCheck "i feel sad", .sentimentCall "i feel sad",
           .logProcessError, .speakCall apology_message, .played apology_message] := by
  constructor <;> decide

/-- C3 amended: on a non-exit turn, a failure of the sentiment classifier
does not crash the session, but it does abort the rest of the turn: the
response engine is never invoked, the generic apology is spoken, the
failure is logged, no history entries are appended, and the loop returns
to awaiting input. -/
theorem c3_amended_sentiment_failure (env : TurnEnv) (hist : List Entry) (raw : String)
    (hl : env.listen = .result raw) (hr : raw ≠ "")
    (hx : env.exitResult = .ok false) (hs : env.sentimentResult = .error ()) :
    (∀ s, Event.engineCall s ∉ (processTurn env hist).trace)
      ∧ Event.speakCall apology_message ∈ (processTurn env hist).trace
      ∧ Event.logProcessError ∈ (processTurn env hist).trace
      ∧ (processTurn env hist).hist = hist
      ∧ (processTurn env hist).status = .awaitingInput := by
  rw [processTurn_sentimentError env hist raw hl hr hx hs]
  refine ⟨?_, ?_, ?_, rfl, rfl⟩
  · intro s hmem
    simp at hmem
  · simp [speakCall_mem_speakEvents]
  · simp

/-- Witness for the amended C3 at the transcript of `c3Env`. -/
theorem c3_amended_sentiment_failure_witness :
    c3Env.listen = .result "i feel sad" ∧ "i feel sad" ≠ ""
      ∧ c3Env.exitResult = .ok false ∧ c3Env.sentimentResult = .error ()
      ∧ ((∀ s, Event.engineCall s ∉ (processTurn c3Env []).trace)
          ∧ Event.speakCall apology_message ∈ (processTurn c3Env []).trace
          ∧ Event.logProcessError ∈ (processTurn c3Env []).trace
          ∧ (processTurn c3Env []).hist = []
          ∧ (processTurn c3Env []).status = .awaitingInput) :=
  ⟨rfl, by decide, rfl, rfl,
   c3_amended_sentiment_failure c3Env [] "i feel sad" rfl (by decide) rfl rfl⟩

/-! Claim C4 (corrected). -/

/-- Turn whose exit-intent classifier raises, used against C4. -/
def c4Env : TurnEnv :=
  ⟨.result "hello", .error (), .ok .NEUTRAL, .ok "a reply", fun _ => none⟩

/-- A perfectly healthy follow-up turn that never runs in the C4 session. -/
def c4NextEnv : TurnEnv :=
  ⟨.result "how are you", .ok false, .ok .POSITIVE, .ok "fine", fun _ => none⟩

/-- C4 counterexample: a failure of the exit-intent classifier is NOT
contained within the turn — the session crashes at that turn and the
healthy follow-up turn never runs (its STT call never appears in the
trace). `check_exit_command` is called outside the try block, so its
exception escapes the loop. -/
theorem c4_counterexample :
    (runSession [c4Env, c4NextEnv] []).ending = .crashed
      ∧ (runSession [c4Env, c4NextEnv] []).trace = [.sttCall, .exitCheck "hello"] := by
  constructor <;> decide

/-- C4 amended: a failure of the exit-intent classifier aborts the whole
session: the exception escapes the loop, the history is left unchanged,
and no later turn environment is consumed. -/
theorem c4_amended_exit_failure_crashes (env : TurnEnv) (rest : List TurnEnv)
    (hist : List Entry) (raw : String)
    (hl : env.listen = .result raw) (hr : raw ≠ "")
    (hx : env.exitResult = .error ()) :
    (runSession (env :: rest) hist).ending = .crashed
      ∧ (runSession (env :: rest) hist).hist = hist
      ∧ runSession (env :: rest) hist = runSession [env] hist := by
  have h := processTurn_exitError env hist raw hl hr hx
  refine ⟨?_, ?_, ?_⟩ <;> simp [runSession, h]

/-- Witness for the amended C4 at the transcript of `c4Env`. -/
theorem c4_amended_exit_failure_crashes_witness :
    c4Env.listen = .result "hello" ∧ "hello" ≠ "" ∧ c4Env.exitResult = .error ()
      ∧ ((runSession (c4Env :: [c4NextEnv]) []).ending = .crashed
          ∧ (runSession (c4Env :: [c4NextEnv]) []).hist = []
          ∧ runSession (c4Env :: [c4NextEnv]) [] = runSession [c4Env] []) :=
  ⟨rfl, by decide, rfl,
   c4_amended_exit_failure_crashes c4Env [c4NextEnv] [] "hello" rfl (by decide) rfl⟩

/-! Claim C6. -/

/-- C6: when transcription reports the empty-result (no-speech) marker,
the conversation history is unchanged, no entry is ever appended during
the turn (no Turn is created), the spoken re-prompt is issued, and the
loop goes back to awaiting input. -/
theorem c6_no_speech (env : TurnEnv) (hist : List Entry)
    (hl : env.listen = .empty) :
    (processTurn env hist).hist = hist
      ∧ (processTurn env hist).status = .awaitingInput
      ∧ Event.speakCall reprompt_message ∈ (processTurn env hist).trace
      ∧ ∀ a : Entry, Event.appendEntry a ∉ (processTurn env hist).trace := by
  rw [processTurn_empty env hist hl]
  refine ⟨rfl, rfl, ?_, ?_⟩
  · simp [speakCall_mem_speakEvents]
  · intro a hmem
    simp at hmem

/-- No-speech turn used to witness C6. -/
def c6Env : TurnEnv :=
  ⟨.empty, .ok false, .ok .NEUTRAL, .ok "unused reply", fun _ => none⟩

/-- Witness for C6 on a turn with no speech detected. -/
theorem c6_no_speech_witness :
    c6Env.listen = .empty
      ∧ ((processTurn c6Env []).hist = []
          ∧ (processTurn c6Env []).status = .awaitingInput
          ∧ Event.speakCall reprompt_message ∈ (processTurn c6Env []).trace
          ∧ ∀ a : Entry, Event.appendEntry a ∉ (processTurn c6Env []).trace) :=
  ⟨rfl, c6_no_speech c6Env [] rfl⟩

/-! Claim C5 (corrected). -/

/-- Successful non-exit turn whose TTS call for the reply raises, used
against C5. -/
def c5Env : TurnEnv :=
  ⟨.result "hello friend", .ok false, .ok .POSITIVE, .ok "hi there",
   fun t => if t = "hi there" then some (500, "tts down") else none⟩

/-- C5 counterexample: on a turn where the TTS service raises while
speaking the reply, the turn is NOT aborted — the exception is caught
inside `_speak`, only logged, and both history entries are still
appended afterwards. -/
theorem c5_counterexample :
    Event.logTTSError 500 "tts down" ∈ (processTurn c5Env []).trace
      ∧ (processTurn c5Env []).hist
          = [⟨"user", "hello friend"⟩, ⟨"gpt", "hi there"⟩]
      ∧ (processTurn c5Env []).status = .awaitingInput := by
  refine ⟨?_, ?_, ?_⟩ <;> decide

/-- C5 amended: an STT `ApiException` is logged with its status code and
message, aborts the turn without touching history, and the session
continues awaiting input — but the orchestrator handles it exactly like
the no-speech outcome (same re-prompt path, they differ only in the log
line inside `_listen`); a TTS `ApiException` is logged with its status
code and message and contained inside `_speak`, so the turn is NOT
aborted and completes normally. -/
theorem c5_amended_service_errors (env1 env2 : TurnEnv) (hist : List Entry)
    (c : Nat) (m : String) (raw reply : String) (v : Sentiment)
    (h1 : env1.listen = .apiError c m)
    (h2l : env2.listen = .result raw) (h2r : raw ≠ "")
    (h2x : env2.exitResult = .ok false) (h2s : env2.sentimentResult = .ok v)
    (h2e : env2.engineResult = .ok reply) (h2t : env2.ttsFail reply = some (c, m)) :
    ((processTurn env1 hist).trace
        = [.sttCall, .logSTTError c m, .logNoValidInput]
            ++ speakEvents env1 reprompt_message
      ∧ (processTurn env1 hist).hist = hist
      ∧ (processTurn env1 hist).status = .awaitingInput
      ∧ Event.speakCall reprompt_message ∈ (processTurn env1 hist).trace)
    ∧ (Event.logTTSError c m ∈ (processTurn env2 hist).trace
      ∧ (processTurn env2 hist).hist
          = hist ++ [⟨"user", lowerStr raw⟩, ⟨"gpt", reply⟩]
      ∧ (processTurn env2 hist).status = .awaitingInput) := by
  constructor
  · rw [processTurn_sttError env1 hist c m h1]
    exact ⟨rfl, rfl, rfl, by simp [speakCall_mem_speakEvents]⟩
  · rw [processTurn_success env2 hist raw v reply h2l h2r h2x h2s h2e]
    refine ⟨?_, rfl, rfl⟩
    simp [speakEvents, h2t]

/-- STT-error turn used to witness the amended C5. -/
def c5SttEnv : TurnEnv :=
  ⟨.apiError 500 "tts down", .ok false, .ok .NEUTRAL, .ok "unused reply", fun _ => none⟩

/-- Witness for the amended C5: an STT error turn and a TTS error turn. -/
theorem c5_amended_service_errors_witness :
    c5SttEnv.listen = .apiError 500 "tts down"
      ∧ c5Env.listen = .result "hello friend" ∧ "hello friend" ≠ ""
      ∧ c5Env.exitResult = .ok false ∧ c5Env.sentimentResult = .ok .POSITIVE
      ∧ c5Env.engineResult = .ok "hi there"
      ∧ c5Env.ttsFail "hi there" = some (500, "tts down")
      ∧ (((processTurn c5SttEnv []).trace
            = [.sttCall, .logSTTError 500 "tts down", .logNoValidInput]
                ++ speakEvents c5SttEnv reprompt_message
          ∧ (processTurn c5SttEnv []).hist = []
          ∧ (processTurn c5SttEnv []).status = .awaitingInput
          ∧ Event.speakCall reprompt_message ∈ (processTurn c5SttEnv []).trace)
        ∧ (Event.logTTSError 500 "tts down" ∈ (processTurn c5Env []).trace
          ∧ (processTurn c5Env []).hist
              = [] ++ [⟨"user", lowerStr "hello friend"⟩, ⟨"gpt", "hi there"⟩]
          ∧ (processTurn c5Env []).status = .awaitingInput)) :=
  ⟨rfl, rfl, by decide, rfl, rfl, rfl, by decide,
   c5_amended_service_errors c5SttEnv c5Env [] 500 "tts down" "hello friend"
     "hi there" .POSITIVE rfl rfl (by decide) rfl rfl rfl (by decide)⟩

/-! Claim C7 (corrected). -/

/-- Non-exit turn with a non-empty transcript whose response-engine call
raises, used against C7. -/
def c7Env : TurnEnv :=
  ⟨.result "tell me a story", .ok false, .ok .NEUTRAL, .error (), fun _ => none⟩

/-- C7 counterexample: a user turn with a non-empty transcript whose
processing fails appends NO history entry at all — not exactly one user
entry — because both appends sit at the end of the try block, after the
engine call. -/
theorem c7_counterexample :
    (processTurn c7Env []).hist = []
      ∧ Event.appendEntry ⟨"user", "tell me a story"⟩ ∉ (processTurn c7Env []).trace := by
  refine ⟨?_, ?_⟩ <;> decide

/-- C7 amended: a non-empty-transcript turn whose processing succeeds
appends exactly the user entry followed by the assistant entry; a
terminating turn appends the user entry followed by the single farewell
assistant entry; a turn whose sentiment or response processing raises
appends nothing. -/
theorem c7_amended_history_pairing (env : TurnEnv) (hist : List Entry) (raw : String)
    (hl : env.listen = .result raw) (hr : raw ≠ "") :
    (∀ v reply, env.exitResult = .ok false → env.sentimentResult = .ok v →
        env.engineResult = .ok reply →
        (processTurn env hist).hist = hist ++ [⟨"user", lowerStr raw⟩, ⟨"gpt", reply⟩])
      ∧ (env.exitResult = .ok true →
          (processTurn env hist).hist
            = hist ++ [⟨"user", lowerStr raw⟩, ⟨"gpt", gpt_exit_message⟩])
      ∧ (env.exitResult = .ok false → env.sentimentResult = .error () →
          (processTurn env hist).hist = hist)
      ∧ (∀ v, env.exitResult = .ok false → env.sentimentResult = .ok v →
          env.engineResult = .error () →
          (processTurn env hist).hist = hist) := by
  refine ⟨?_, ?_, ?_, ?_⟩
  · intro v reply hx hs he
    rw [processTurn_success env hist raw v reply hl hr hx hs he]
  · intro hx
    rw [processTurn_exitTrue env hist raw hl hr hx]
  · intro hx hs
    rw [processTurn_sentimentError env hist raw hl hr hx hs]
  · intro v hx hs he
    rw [processTurn_engineError env hist raw v hl hr hx hs he]

/-- Witness for the amended C7 at the transcript of `c7Env`. -/
theorem c7_amended_history_pairing_witness :
    c7Env.listen = .result "tell me a story" ∧ "tell me a story" ≠ ""
      ∧ ((∀ v reply, c7Env.exitResult = .ok false → c7Env.sentimentResult = .ok v →
            c7Env.engineResult = .ok reply →
            (processTurn c7Env []).hist
              = [] ++ [⟨"user", lowerStr "tell me a story"⟩, ⟨"gpt", reply⟩])
        ∧ (c7Env.exitResult = .ok true →
            (processTurn c7Env []).hist
              = [] ++ [⟨"user", lowerStr "tell me a story"⟩, ⟨"gpt", gpt_exit_message⟩])
        ∧ (c7Env.exitResult = .ok false → c7Env.sentimentResult = .error () →
            (processTurn c7Env []).hist = [])
        ∧ (∀ v, c7Env.exitResult = .ok false → c7Env.sentimentResult = .ok v →
            c7Env.engineResult = .error () →
            (processTurn c7Env []).hist = [])) :=
  ⟨rfl, by decide,
   c7_amended_history_pairing c7Env [] "tell me a story" rfl (by decide)⟩

/-! Claim C8. -/

/-- A turn environment in which listening yields a non-empty transcript,
exit-intent is false, and sentiment, engine and nothing else fail — one
completed `PROCESSING` cycle with a reply. -/
def successfulNonExit (env : TurnEnv) : Prop :=
  (∃ raw, env.listen = .result raw ∧ raw ≠ "")
    ∧ env.exitResult = .ok false
    ∧ (∃ v, env.sentimentResult = .ok v)
    ∧ (∃ reply, env.engineResult = .ok reply)

/-- The user/assistant pair appended by one successful non-exit turn. -/
def turnPair (env : TurnEnv) : List Entry :=
  match listenResult env.listen, env.engineResult with
  | some raw, .ok reply => [⟨"user", lowerStr raw⟩, ⟨"gpt", reply⟩]
  | _, _ => []

/-- The concatenation of the pairs of a list of turns. -/
def sessionPairs : List TurnEnv → List Entry
  | [] => []
  | env :: rest => turnPair env ++ sessionPairs rest

theorem turnPair_length_of_successful (env : TurnEnv)
    (h : successfulNonExit env) : (turnPair env).length = 2 := by
  obtain ⟨⟨raw, hl, _⟩, _, _, ⟨reply, he⟩⟩ := h
  simp [turnPair, listenResult, hl, he]

theorem runSession_successful (envs : List TurnEnv) (hist : List Entry)
    (hall : ∀ env ∈ envs, successfulNonExit env) :
    (runSession envs hist).hist = hist ++ sessionPairs envs := by
  induction envs generalizing hist with
  | nil => simp [runSession, sessionPairs]
  | cons env rest ih =>
    obtain ⟨⟨raw, hl, hr⟩, hx, ⟨v, hs⟩, ⟨reply, he⟩⟩ := hall env (by simp)
    have hstep := processTurn_success env hist raw v reply hl hr hx hs he
    have hrest : ∀ e ∈ rest, successfulNonExit e := fun e hm => hall e (by simp [hm])
    simp [runSession, hstep, ih _ hrest, sessionPairs, turnPair, listenResult, hl, he]

theorem sessionPairs_length (envs : List TurnEnv)
    (hall : ∀ env ∈ envs, successfulNonExit env) :
    (sessionPairs envs).length = 2 * envs.length := by
  induction envs with
  | nil => simp [sessionPairs]
  | cons env rest ih =>
    have hlen := turnPair_length_of_successful env (hall env (by simp))
    have hrest : ∀ e ∈ rest, successfulNonExit e := fun e hm => hall e (by simp [hm])
    simp only [sessionPairs, List.length_append, List.length_cons, hlen, ih hrest]
    omega

/-- C8: after N successful non-exit turns starting from the empty
history, the conversation history is exactly the concatenation of the
per-cycle user/assistant pairs — one pair per completed `PROCESSING`
cycle — and its length is exactly 2N. -/
theorem c8_round_trip (envs : List TurnEnv)
    (hall : ∀ env ∈ envs, successfulNonExit env) :
    (runSession envs []).hist = sessionPairs envs
      ∧ (runSession envs []).hist.length = 2 * envs.length := by
  have h := runSession_successful envs [] hall
  simp only [List.nil_append] at h
  exact ⟨h, by rw [h]; exact sessionPairs_length envs hall⟩

/-- First successful turn used to witness C8. -/
def c8Env1 : TurnEnv :=
  ⟨.result "hello there", .ok false, .ok .NEUTRAL, .ok "Hi! How are you?", fun _ => none⟩

/-- Second successful turn used to witness C8. -/
def c8Env2 : TurnEnv :=
  ⟨.result "pretty good", .ok false, .ok .POSITIVE, .ok "Glad to hear it!", fun _ => none⟩

/-- Witness for C8 on a session of two successful non-exit turns. -/
theorem c8_round_trip_witness :
    (∀ env ∈ [c8Env1, c8Env2], successfulNonExit env)
      ∧ ((runSession [c8Env1, c8Env2] []).hist = sessionPairs [c8Env1, c8Env2]
          ∧ (runSession [c8Env1, c8Env2] []).hist.length = 2 * [c8Env1, c8Env2].length) :=
  have hall : ∀ env ∈ [c8Env1, c8Env2], successfulNonExit env := by
    intro env hm
    simp at hm
    rcases hm with h | h <;> subst h <;>
      exact ⟨⟨_, rfl, by decide⟩, rfl, ⟨_, rfl⟩, ⟨_, rfl⟩⟩
  ⟨hall, c8_round_trip [c8Env1, c8Env2] hall⟩

/-! Claim C9. -/

/-- C9: when the response-engine call raises on a non-exit turn, the
generic apology is spoken, the failure is logged, no history entry (in
particular no assistant entry) is appended, and the loop goes back to
awaiting input rather than terminating. -/
theorem c9_engine_failure (env : TurnEnv) (hist : List Entry) (raw : String)
    (v : Sentiment) (hl : env.listen = .result raw) (hr : raw ≠ "")
    (hx : env.exitResult = .ok false) (hs : env.sentimentResult = .ok v)
    (he : env.engineResult = .error ()) :
    Event.speakCall apology_message ∈ (processTurn env hist).trace
      ∧ Event.logProcessError ∈ (processTurn env hist).trace
      ∧ (processTurn env hist).hist = hist
      ∧ (processTurn env hist).status = .awaitingInput := by
  rw [processTurn_engineError env hist raw v hl hr hx hs he]
  refine ⟨?_, ?_, rfl, rfl⟩ <;> simp [speakCall_mem_speakEvents]

/-- Engine-failure turn used to witness C9. -/
def c9Env : TurnEnv :=
  ⟨.result "what is the weather", .ok false, .ok .NEUTRAL, .error (), fun _ => none⟩

/-- Witness for C9 at the transcript of `c9Env`. -/
theorem c9_engine_failure_witness :
    c9Env.listen = .result "what is the weather" ∧ "what is the weather" ≠ ""
      ∧ c9Env.exitResult = .ok false ∧ c9Env.sentimentResult = .ok .NEUTRAL
      ∧ c9Env.engineResult = .error ()
      ∧ (Event.speakCall apology_message ∈ (processTurn c9Env []).trace
          ∧ Event.logProcessError ∈ (processTurn c9Env []).trace
          ∧ (processTurn c9Env []).hist = []
          ∧ (processTurn c9Env []).status = .awaitingInput) :=
  ⟨rfl, by decide, rfl, rfl, rfl,
   c9_engine_failure c9Env [] "what is the weather" .NEUTRAL rfl (by decide) rfl rfl rfl⟩

/-! Claim C10. -/

/-- C10: for every non-empty transcript, every downstream consumer sees
the lowercased transcript: any exit-intent check, sentiment call or
engine call recorded in the turn's trace carries exactly `lowerStr raw`,
and any user entry appended carries exactly `lowerStr raw` as content —
the original-case transcript is never stored or passed onward. -/
theorem c10_lowercase_everywhere (env : TurnEnv) (hist : List Entry) (raw : String)
    (hl : env.listen = .result raw) (hr : raw ≠ "") :
    (∀ s, Event.exitCheck s ∈ (processTurn env hist).trace → s = lowerStr raw)
      ∧ (∀ s, Event.sentimentCall s ∈ (processTurn env hist).trace → s = lowerStr raw)
      ∧ (∀ s, Event.engineCall s ∈ (processTurn env hist).trace → s = lowerStr raw)
      ∧ (∀ c, Event.appendEntry ⟨"user", c⟩ ∈ (processTurn env hist).trace
          → c = lowerStr raw) := by
  rcases hx : env.exitResult with u | b
  · cases u
    rw [processTurn_exitError env hist raw hl hr hx]
    refine ⟨?_, ?_, ?_, ?_⟩ <;> intro s hmem <;> simp at hmem <;> exact hmem
  · cases b with
    | true =>
      rw [processTurn_exitTrue env hist raw hl hr hx]
      refine ⟨?_, ?_, ?_, ?_⟩ <;> intro s hmem <;> simp at hmem <;> exact hmem
    | false =>
      rcases hs : env.sentimentResult with u | v
      · cases u
        rw [processTurn_sentimentError env hist raw hl hr hx hs]
        refine ⟨?_, ?_, ?_, ?_⟩ <;> intro s hmem <;> simp at hmem <;> exact hmem
      · rcases he : env.engineResult with u | reply
        · cases u
          rw [processTurn_engineError env hist raw v hl hr hx hs he]
          refine ⟨?_, ?_, ?_, ?_⟩ <;> intro s hmem <;> simp at hmem <;> exact hmem
        · rw [processTurn_success env hist raw v reply hl hr hx hs he]
          refine ⟨?_, ?_, ?_, ?_⟩ <;> (intro s hmem; simp at hmem; exact hmem)

/-- Mixed-case transcript turn used to witness C10. -/
def c10Env : TurnEnv :=
  ⟨.result "Hello There", .ok false, .ok .NEUTRAL, .ok "Hi!", fun _ => none⟩

/-- Witness for C10 at the mixed-case transcript "Hello There". -/
theorem c10_lowercase_everywhere_witness :
    c10Env.listen = .result "Hello There" ∧ "Hello There" ≠ ""
      ∧ ((∀ s, Event.exitCheck s ∈ (processTurn c10Env []).trace
            → s = lowerStr "Hello There")
        ∧ (∀ s, Event.sentimentCall s ∈ (processTurn c10Env []).trace
            → s = lowerStr "Hello There")
        ∧ (∀ s, Event.engineCall s ∈ (processTurn c10Env []).trace
            → s = lowerStr "Hello There")
        ∧ (∀ c, Event.appendEntry ⟨"user", c⟩ ∈ (processTurn c10Env []).trace
            → c = lowerStr "Hello There")) :=
  ⟨rfl, by decide,
   c10_lowercase_everywhere c10Env [] "Hello There" rfl (by decide)⟩

end CozmoCompanion
